import Mathlib

/-!
# EtherLiftFundraising — shallow embedding and verification

Shallow embedding of `contracts/EtherLiftFundraising.sol` (a single-campaign
confidential fundraising contract on top of an FHE coprocessor and an
ERC7984 confidential token).

Modelling choices:
* Account addresses and ciphertext handles are both `Nat`.  Handle `0` is the
  uninitialized `euint64` (Solidity's default `bytes32(0)`);
  `FHE.isInitialized h` is `h ≠ 0`, as in the fhevm library.
* The FHE coprocessor state (`FheEnv`) maps handles to plaintexts and holds
  the access-control list.  Fresh handles are allocated from a counter that
  starts at `1`, so handle `0` is never a real ciphertext.
  `homomorphicAdd` of the external EncryptedValue service produces a fresh
  handle whose plaintext is the sum of the operands' plaintexts, an
  uninitialized operand counting as zero (the fhevm library coerces
  uninitialized operands to trivial zero ciphertexts).
* The ERC7984 token (`contracts/ERC7984ETH.sol` is not part of the sources
  available here) is modelled from the spec's ConfidentialLedger interface:
  operator approvals, plaintext-view balances, a transfer log.
  `confidentialTransferFrom` fails when the input proof is invalid or the
  balance is insufficient (the spec's `TransferRejected`), otherwise mints
  the ciphertext of the moved amount; `confidentialTransfer` fails when the
  calling contract has no access grant on the amount handle.
* Every state-changing entry point returns `Except String …`; an `.error`
  is an EVM revert, so the observable post-state of a failing call is the
  unchanged pre-state (`applyTx`).  Errors are the literal `require`
  messages of the source.
-/

namespace EtherLift

/-- FHE coprocessor state: fresh-handle counter, plaintext of each handle,
and the access-control list (which principals may decrypt which handle). -/
structure FheEnv where
  nextHandle : Nat
  plain : Nat → Nat
  acl : Nat → Nat → Bool

/-- Plaintext denoted by a handle; the uninitialized handle `0` denotes zero. -/
def FheEnv.valueOf (env : FheEnv) (h : Nat) : Nat :=
  if h = 0 then 0 else env.plain h

/-- Mint a fresh (trivially encrypted) ciphertext of plaintext `v`; the fresh
handle is `env.nextHandle`.  Models `FHE.asEuint64` and the handle returned
by a ledger transfer. -/
def FheEnv.mint (env : FheEnv) (v : Nat) : FheEnv :=
  { env with
      nextHandle := env.nextHandle + 1
      plain := fun h => if h = env.nextHandle then v else env.plain h }

/-- Homomorphic addition (`FHE.add`): a fresh handle whose plaintext is the
sum of the operands' plaintexts (uninitialized operands count as zero). -/
def FheEnv.hadd (env : FheEnv) (a b : Nat) : FheEnv :=
  env.mint (env.valueOf a + env.valueOf b)

/-- Access grant (`FHE.allow` / `FHE.allowThis`): additive, never revoked. -/
def FheEnv.allow (env : FheEnv) (h : Nat) (who : Nat) : FheEnv :=
  { env with
      acl := fun h2 a2 => if h2 = h && a2 = who then true else env.acl h2 a2 }

/-- `FHE.isInitialized`: an `euint64` is initialized iff its handle is nonzero. -/
def FHE.isInitialized (h : Nat) : Bool :=
  h != 0

/-- Modelled from the spec: the ConfidentialLedger (ERC7984ETH cETH token,
whose Solidity source is not among the files available here) at its
interface boundary — operator approvals (`isOperator`), a plaintext view of
the confidential balances, and a log of performed transfers
`(from, to, amountHandle)`. -/
structure Ledger where
  operators : Nat → Nat → Bool
  balances : Nat → Nat
  transfers : List (Nat × Nat × Nat)

/-- An encrypted external input (`externalEuint64` plus `inputProof`):
the claimed plaintext and whether the proof verifies. -/
structure EncInput where
  value : Nat
  proofOk : Bool

/-- Campaign metadata (`struct Campaign`). -/
structure Campaign where
  name : String
  targetAmount : Nat
  endTime : Nat

/-- Audit events of the contract. -/
inductive Event where
  | campaignUpdated (name : String) (targetAmount endTime : Nat)
  | contributionReceived (contributor : Nat) (amount : Nat) (ts : Nat)
  | campaignClosed (fundraiser : Nat) (amount : Nat) (ts : Nat)

/-- Full observable state: the contract's storage, the FHE coprocessor, the
token ledger, and the emitted event log. -/
structure State where
  self : Nat
  cEth : Nat
  fundraiser : Nat
  campaign : Campaign
  totalRaised : Nat
  isClosed : Bool
  lastContributionAt : Nat
  contributions : Nat → Nat
  env : FheEnv
  ledger : Ledger
  events : List Event

/-- `_setCampaign`: validation then overwrite of the campaign metadata,
with the `CampaignUpdated` event.  The `require` messages are the source's. -/
def setCampaign (name : String) (targetAmount endTime now : Nat) (s : State) :
    Except String State :=
  if s.isClosed then .error "Campaign closed"
  else if name = "" then .error "Name required"
  else if targetAmount = 0 then .error "Target required"
  else if endTime ≤ now then .error "End time must be in future"
  else .ok { s with
              campaign := ⟨name, targetAmount, endTime⟩
              events := s.events ++ [Event.campaignUpdated name targetAmount endTime] }

/-- `configureCampaign`: `onlyFundraiser` modifier then `_setCampaign`. -/
def configureCampaign (sender : Nat) (name : String)
    (targetAmount endTime now : Nat) (s : State) : Except String State :=
  if sender = s.fundraiser then setCampaign name targetAmount endTime now s
  else .error "Only fundraiser"

/-- `contribute`: the three `require` checks, the ledger
`confidentialTransferFrom` (modelled from the spec: fails on a bad proof or
insufficient balance, otherwise mints the ciphertext of the moved amount
and moves the balance), the two homomorphic accumulations with their six
access grants, `lastContributionAt`, and the `ContributionReceived` event.
Returns the updated per-contributor ciphertext. -/
def contributeOp (sender : Nat) (now : Nat) (inp : EncInput) (s : State) :
    Except String (State × Nat) :=
  if s.isClosed then .error "Campaign closed"
  else if s.campaign.endTime < now then .error "Past end time"
  else if s.ledger.operators sender s.self = false then .error "Operator missing"
  else if inp.proofOk = false then .error "Transfer rejected"
  else if s.ledger.balances sender < inp.value then .error "Transfer rejected"
  else
    let transferred := s.env.nextHandle
    let env1 := s.env.mint inp.value
    let newContribution := env1.nextHandle
    let env2 :=
      (((env1.hadd (s.contributions sender) transferred).allow newContribution s.self).allow
          newContribution sender).allow newContribution s.fundraiser
    let updatedTotal := env2.nextHandle
    let env3 :=
      (((env2.hadd s.totalRaised transferred).allow updatedTotal s.self).allow
          updatedTotal s.fundraiser).allow updatedTotal sender
    .ok ({ s with
            env := env3
            ledger :=
              { operators := s.ledger.operators
                balances := fun a =>
                  if a = s.self then
                    (if a = sender then s.ledger.balances a - inp.value
                     else s.ledger.balances a) + inp.value
                  else
                    (if a = sender then s.ledger.balances a - inp.value
                     else s.ledger.balances a)
                transfers := s.ledger.transfers ++ [(sender, s.self, transferred)] }
            contributions := fun a => if a = sender then newContribution else s.contributions a
            totalRaised := updatedTotal
            lastContributionAt := now
            events := s.events ++ [Event.contributionReceived sender transferred now] },
          newContribution)

/-- `closeCampaign`: `onlyFundraiser`, the terminal check, zero-substitution
for a never-touched total (`FHE.isInitialized` guard, with `allowThis` on the
fresh zero), the ledger `confidentialTransfer` of the payout to the
fundraiser (modelled from the spec: fails when the contract holds no access
grant on the payout handle), and the `CampaignClosed` event. -/
def closeCampaignOp (sender : Nat) (now : Nat) (s : State) : Except String State :=
  if sender = s.fundraiser then
    if s.isClosed then .error "Already closed"
    else
      let payout := if FHE.isInitialized s.totalRaised then s.totalRaised else s.env.nextHandle
      let env1 :=
        if FHE.isInitialized s.totalRaised then s.env
        else (s.env.mint 0).allow s.env.nextHandle s.self
      if env1.acl payout s.self = false then .error "Transfer rejected"
      else
        let v := env1.valueOf payout
        .ok { s with
                isClosed := true
                env := env1
                ledger :=
                  { operators := s.ledger.operators
                    balances := fun a =>
                      if a = s.fundraiser then
                        (if a = s.self then s.ledger.balances a - v
                         else s.ledger.balances a) + v
                      else
                        (if a = s.self then s.ledger.balances a - v
                         else s.ledger.balances a)
                    transfers := s.ledger.transfers ++ [(s.self, s.fundraiser, payout)] }
                events := s.events ++ [Event.campaignClosed s.fundraiser payout now] }
  else .error "Only fundraiser"

/-- The constructor: zero-address check on the token, `fundraiser :=
msg.sender`, default storage, then `_setCampaign` validation.  `led` is the
pre-existing token ledger. -/
def construct (deployer tokenAddr selfAddr : Nat) (name : String)
    (targetAmount endTime now : Nat) (led : Ledger) : Except String State :=
  if tokenAddr = 0 then .error "Token required"
  else
    setCampaign name targetAmount endTime now
      { self := selfAddr
        cEth := tokenAddr
        fundraiser := deployer
        campaign := ⟨"", 0, 0⟩
        totalRaised := 0
        isClosed := false
        lastContributionAt := 0
        contributions := fun _ => 0
        env := { nextHandle := 1, plain := fun _ => 0, acl := fun _ _ => false }
        ledger := led
        events := [] }

/-- `getCampaign` view. -/
def getCampaign (s : State) : String × Nat × Nat × Bool :=
  (s.campaign.name, s.campaign.targetAmount, s.campaign.endTime, s.isClosed)

/-- `timeRemaining` view. -/
def timeRemaining (s : State) (now : Nat) : Nat :=
  if s.campaign.endTime ≤ now then 0 else s.campaign.endTime - now

/-- `totalRaised` view: returns the stored handle as-is. -/
def totalRaisedView (s : State) : Nat :=
  s.totalRaised

/-- `contributionOf` view: returns the stored handle as-is. -/
def contributionOf (s : State) (contributor : Nat) : Nat :=
  s.contributions contributor

/-- The three state-changing transactions. -/
inductive Tx where
  | configure (sender : Nat) (now : Nat) (name : String) (targetAmount endTime : Nat)
  | contribute (sender : Nat) (now : Nat) (inp : EncInput)
  | close (sender : Nat) (now : Nat)

/-- One transaction, as an `Except` computation. -/
def stepTx : Tx → State → Except String State
  | .configure sender now name t e, s => configureCampaign sender name t e now s
  | .contribute sender now inp, s => (contributeOp sender now inp s).map Prod.fst
  | .close sender now, s => closeCampaignOp sender now s

/-- EVM transaction semantics: a revert discards every write, so the
observable post-state of a failing transaction is the pre-state. -/
def applyTx (tx : Tx) (s : State) : State :=
  match stepTx tx s with
  | .ok s' => s'
  | .error _ => s


/-- A contribution request: the calling contributor, the block timestamp,
and the encrypted input with its proof. -/
structure Req where
  sender : Nat
  now : Nat
  inp : EncInput

/-- Run a sequence of contribution requests under EVM transaction semantics
(a rejected request leaves the state unchanged), collecting for each
accepted request the pair (contributor, transferred plaintext amount). -/
def runAcc : State → List Req → State × List (Nat × Nat)
  | s, [] => (s, [])
  | s, r :: rs =>
    match contributeOp r.sender r.now r.inp s with
    | .ok (s', _) =>
      let rest := runAcc s' rs
      (rest.1, (r.sender, r.inp.value) :: rest.2)
    | .error _ => runAcc s rs

/-- Sum of all accepted amounts. -/
def sumAll (l : List (Nat × Nat)) : Nat :=
  (l.map Prod.snd).sum

/-- Sum of the accepted amounts of one contributor. -/
def sumFor (c : Nat) (l : List (Nat × Nat)) : Nat :=
  ((l.filter (fun p => p.1 = c)).map Prod.snd).sum

/-- Well-formedness of a reachable state: the fresh-handle counter is
positive, every stored handle was allocated below it, and no handle at or
above it carries an access grant. -/
def WF (s : State) : Prop :=
  0 < s.env.nextHandle ∧ s.totalRaised < s.env.nextHandle ∧
    (∀ c, s.contributions c < s.env.nextHandle) ∧
    (∀ h a, s.env.nextHandle ≤ h → s.env.acl h a = false)


/-- Fallback state used only to destructure `Except` results in the
concrete examples below. -/
def fallbackState : State :=
  { self := 0, cEth := 0, fundraiser := 0, campaign := ⟨"", 0, 0⟩, totalRaised := 0,
    isClosed := false, lastContributionAt := 0, contributions := fun _ => 0,
    env := { nextHandle := 1, plain := fun _ => 0, acl := fun _ _ => false },
    ledger := { operators := fun _ _ => false, balances := fun _ => 0, transfers := [] },
    events := [] }

/-- Unwrap a successful result, with an explicit default. -/
def okOr (x : Except String State) (d : State) : State :=
  match x with
  | .ok s => s
  | .error _ => d

/-- Concrete token ledger: contributors `7` and `8` hold 5000000 units each
and have approved contract `3` as operator; `9` has approved nothing. -/
def led0 : Ledger :=
  { operators := fun o sp => (o == 7 || o == 8) && sp == 3
    balances := fun a => if a = 7 then 5000000 else if a = 8 then 5000000 else 0
    transfers := [] }

/-- Concrete deployed state: fundraiser `1` deploys at time `0` against
token `2`, the contract lives at `3`, campaign "camp", target 5000000,
end time 100. -/
def s0ex : State :=
  okOr (construct 1 2 3 "camp" 5000000 100 0 led0) fallbackState

/-- A first concrete contribution input (2500000, valid proof). -/
def reqA : EncInput :=
  ⟨2500000, true⟩

/-- State after contributor `7` contributes `reqA` at time 10. -/
def s1ex : State :=
  okOr ((contributeOp 7 10 reqA s0ex).map Prod.fst) fallbackState

/-- Concrete request schedule: two accepted contributions from `7`, one
from `8`, one rejected for a missing operator (`9`), one rejected for
being past the end time. -/
def rsEx : List Req :=
  [⟨7, 10, ⟨2500000, true⟩⟩, ⟨7, 20, ⟨750000, true⟩⟩, ⟨8, 30, ⟨1000000, true⟩⟩,
    ⟨9, 40, ⟨5, true⟩⟩, ⟨7, 200, ⟨1, true⟩⟩]

/-- Concrete closed state: the fundraiser closes `s0ex` at time 50 with no
contributions recorded. -/
def sClosedEx : State :=
  okOr (closeCampaignOp 1 50 s0ex) fallbackState

/-- An artificial state whose stored total is an initialized handle the
contract holds no access grant for, so the ledger transfer in
`closeCampaign` is rejected. -/
def sFailEx : State :=
  { s0ex with
      totalRaised := 5
      env := { nextHandle := 6, plain := fun _ => 0, acl := fun _ _ => false } }

theorem FheEnv.nextHandle_mint (env : FheEnv) (v : Nat) :
    (env.mint v).nextHandle = env.nextHandle + 1 := rfl

theorem FheEnv.nextHandle_allow (env : FheEnv) (h : Nat) (who : Nat) :
    (env.allow h who).nextHandle = env.nextHandle := rfl

theorem FheEnv.valueOf_allow (env : FheEnv) (h : Nat) (who : Nat) (k : Nat) :
    (env.allow h who).valueOf k = env.valueOf k := rfl

theorem FheEnv.valueOf_mint_eq (env : FheEnv) (v : Nat) (h : Nat)
    (hh : h = env.nextHandle) (h0 : env.nextHandle ≠ 0) : (env.mint v).valueOf h = v := by
  subst hh
  simp [FheEnv.mint, FheEnv.valueOf, h0]

theorem FheEnv.valueOf_mint_ne (env : FheEnv) (v : Nat) (h : Nat)
    (hne : h ≠ env.nextHandle) : (env.mint v).valueOf h = env.valueOf h := by
  simp [FheEnv.mint, FheEnv.valueOf, hne]

theorem FheEnv.acl_mint (env : FheEnv) (v : Nat) (k : Nat) (a : Nat) :
    (env.mint v).acl k a = env.acl k a := rfl

theorem FheEnv.acl_allow (env : FheEnv) (h : Nat) (who : Nat) (k : Nat) (a : Nat) :
    (env.allow h who).acl k a = if k = h ∧ a = who then true else env.acl k a := by
  by_cases hk : k = h
  · by_cases ha : a = who <;> simp [FheEnv.allow, hk, ha]
  · simp [FheEnv.allow, hk]

theorem contribute_ok_spec {sender : Nat} {now : Nat} {inp : EncInput}
    {s s' : State} {hc : Nat} (hwf : WF s)
    (hres : contributeOp sender now inp s = .ok (s', hc)) :
    WF s'
    ∧ (∀ c, s'.env.valueOf (s'.contributions c)
        = s.env.valueOf (s.contributions c) + (if c = sender then inp.value else 0))
    ∧ s'.env.valueOf s'.totalRaised = s.env.valueOf s.totalRaised + inp.value
    ∧ hc = s'.contributions sender
    ∧ (∀ a, (s'.env.acl (s'.contributions sender) a = true
        ↔ (a = s.self ∨ a = sender ∨ a = s.fundraiser)))
    ∧ (∀ a, (s'.env.acl s'.totalRaised a = true
        ↔ (a = s.self ∨ a = sender ∨ a = s.fundraiser)))
    ∧ s'.self = s.self ∧ s'.fundraiser = s.fundraiser ∧ s'.isClosed = s.isClosed := by
  obtain ⟨hpos, htot, hcon, hacl⟩ := hwf
  by_cases h1 : s.isClosed = true <;> simp [contributeOp, h1] at hres
  by_cases h2 : s.campaign.endTime < now <;> simp [h2] at hres
  by_cases h3 : s.ledger.operators sender s.self = false <;> simp [h3] at hres
  by_cases h4 : inp.proofOk = false <;> simp [h4] at hres
  by_cases h5 : s.ledger.balances sender < inp.value <;> simp [h5] at hres
  obtain ⟨hs', hhc⟩ := hres
  subst hs'
  have hn0 : s.env.nextHandle ≠ 0 := by omega
  have hn10 : s.env.nextHandle + 1 ≠ 0 := by omega
  have hq1 : s.env.nextHandle ≠ s.env.nextHandle + 1 := by omega
  have hq2 : s.env.nextHandle ≠ s.env.nextHandle + 1 + 1 := by omega
  have hq3 : s.env.nextHandle + 1 ≠ s.env.nextHandle + 1 + 1 := by omega
  have htot1 : s.totalRaised ≠ s.env.nextHandle := by omega
  have htot2 : s.totalRaised ≠ s.env.nextHandle + 1 := by omega
  refine ⟨⟨?_, ?_, ?_, ?_⟩, ?_, ?_, ?_, ?_, ?_, ?_, ?_, ?_⟩
  · simp [FheEnv.hadd, FheEnv.nextHandle_mint, FheEnv.nextHandle_allow]
  · simp [FheEnv.hadd, FheEnv.nextHandle_mint, FheEnv.nextHandle_allow]
  · intro c
    have := hcon c
    simp only [FheEnv.hadd, FheEnv.nextHandle_mint, FheEnv.nextHandle_allow]
    split <;> omega
  · intro h a hge
    simp only [FheEnv.hadd, FheEnv.nextHandle_mint, FheEnv.nextHandle_allow] at hge
    have hx1 : h ≠ s.env.nextHandle + 1 := by omega
    have hx2 : h ≠ s.env.nextHandle + 1 + 1 := by omega
    simp only [FheEnv.hadd, FheEnv.acl_allow, FheEnv.acl_mint, FheEnv.nextHandle_mint,
      FheEnv.nextHandle_allow, hx1, hx2, false_and, if_false]
    exact hacl h a (by omega)
  · intro c
    have hcc : s.contributions c ≠ s.env.nextHandle := by have := hcon c; omega
    have hcc1 : s.contributions c ≠ s.env.nextHandle + 1 := by have := hcon c; omega
    have hcc2 : s.contributions c ≠ s.env.nextHandle + 1 + 1 := by have := hcon c; omega
    by_cases hcs : c = sender
    · subst hcs
      simp [FheEnv.hadd, FheEnv.nextHandle_mint, FheEnv.nextHandle_allow, FheEnv.valueOf_allow,
        FheEnv.valueOf_mint_eq, FheEnv.valueOf_mint_ne, hn0, hn10, hq1, hq3, hcc, hcc1]
    · simp [FheEnv.hadd, FheEnv.nextHandle_mint, FheEnv.nextHandle_allow, FheEnv.valueOf_allow,
        FheEnv.valueOf_mint_eq, FheEnv.valueOf_mint_ne, hn0, hn10, hq1, hq3, hcc, hcc1, hcc2, hcs]
  · simp [FheEnv.hadd, FheEnv.nextHandle_mint, FheEnv.nextHandle_allow, FheEnv.valueOf_allow,
      FheEnv.valueOf_mint_eq, FheEnv.valueOf_mint_ne, hn0, hn10, hq1, hq3, htot1, htot2]
  · simp [← hhc]
  · intro a
    have hb1 : ∀ a2, s.env.acl (s.env.nextHandle + 1) a2 = false :=
      fun a2 => hacl _ a2 (by omega)
    simp [FheEnv.hadd, FheEnv.nextHandle_mint, FheEnv.nextHandle_allow, FheEnv.acl_allow,
      FheEnv.acl_mint, hq3, hb1]
    tauto
  · intro a
    have hb2 : ∀ a2, s.env.acl (s.env.nextHandle + 1 + 1) a2 = false :=
      fun a2 => hacl _ a2 (by omega)
    simp [FheEnv.hadd, FheEnv.nextHandle_mint, FheEnv.nextHandle_allow, FheEnv.acl_allow,
      FheEnv.acl_mint, hq3, hb2]
    tauto
  · simp
  · simp
  · simp only [Bool.not_eq_true] at h1
    simp [h1]
theorem sumAll_cons (a v : Nat) (l : List (Nat × Nat)) :
    sumAll ((a, v) :: l) = v + sumAll l := by
  simp [sumAll]

theorem sumFor_cons (c a v : Nat) (l : List (Nat × Nat)) :
    sumFor c ((a, v) :: l) = (if a = c then v else 0) + sumFor c l := by
  simp only [sumFor, List.filter_cons]
  split <;> simp_all

theorem runAcc_spec (rs : List Req) : ∀ s : State, WF s →
    WF (runAcc s rs).1
    ∧ (∀ c, (runAcc s rs).1.env.valueOf ((runAcc s rs).1.contributions c)
        = s.env.valueOf (s.contributions c) + sumFor c (runAcc s rs).2)
    ∧ (runAcc s rs).1.env.valueOf (runAcc s rs).1.totalRaised
        = s.env.valueOf s.totalRaised + sumAll (runAcc s rs).2 := by
  induction rs with
  | nil =>
    intro s hwf
    exact ⟨hwf, fun c => by simp [runAcc, sumFor], by simp [runAcc, sumAll]⟩
  | cons r rs ih =>
    intro s hwf
    cases hres : contributeOp r.sender r.now r.inp s with
    | ok p =>
      obtain ⟨s', hc⟩ := p
      obtain ⟨hwf', hvals, htotv, -, -, -, -, -, -⟩ := contribute_ok_spec hwf hres
      obtain ⟨ihwf, ihvals, ihtot⟩ := ih s' hwf'
      refine ⟨by simpa [runAcc, hres] using ihwf, ?_, ?_⟩
      · intro c
        have h1 := ihvals c
        have h2 := hvals c
        simp only [runAcc, hres]
        rw [sumFor_cons, h1, h2]
        by_cases hcs : c = r.sender
        · simp [hcs]
          omega
        · simp [hcs, fun h => hcs (Eq.symm h)]
          omega
      · simp only [runAcc, hres]
        rw [sumAll_cons, ihtot, htotv]
        omega
    | error e =>
      obtain ⟨ihwf, ihvals, ihtot⟩ := ih s hwf
      exact ⟨by simpa [runAcc, hres] using ihwf,
        fun c => by simpa [runAcc, hres] using ihvals c,
        by simpa [runAcc, hres] using ihtot⟩


theorem setCampaign_ok_spec {nm : String} {t e now : Nat} {s s' : State}
    (hres : setCampaign nm t e now s = .ok s') :
    s.isClosed = false ∧ nm ≠ "" ∧ t ≠ 0 ∧ now < e
    ∧ s' = { s with
              campaign := ⟨nm, t, e⟩
              events := s.events ++ [Event.campaignUpdated nm t e] } := by
  by_cases h1 : s.isClosed = true <;> simp [setCampaign, h1] at hres
  by_cases h2 : nm = "" <;> simp [h2] at hres
  by_cases h3 : t = 0 <;> simp [h3] at hres
  by_cases h4 : e ≤ now <;> simp [h4] at hres
  simp only [Bool.not_eq_true] at h1
  refine ⟨h1, h2, h3, by omega, ?_⟩
  rw [← hres]
  simp [h1]

theorem construct_ok_spec {dep tok slf : Nat} {nm : String} {t e now : Nat}
    {led : Ledger} {s0 : State}
    (h : construct dep tok slf nm t e now led = .ok s0) :
    s0.self = slf ∧ s0.cEth = tok ∧ s0.fundraiser = dep ∧ s0.isClosed = false
    ∧ s0.totalRaised = 0 ∧ (∀ c, s0.contributions c = 0)
    ∧ s0.env.nextHandle = 1 ∧ (∀ h2 a, s0.env.acl h2 a = false)
    ∧ s0.ledger = led ∧ s0.campaign = ⟨nm, t, e⟩
    ∧ s0.events = [Event.campaignUpdated nm t e]
    ∧ tok ≠ 0 ∧ nm ≠ "" ∧ t ≠ 0 ∧ now < e ∧ WF s0 := by
  by_cases h0 : tok = 0 <;> simp [construct, h0] at h
  obtain ⟨-, h2, h3, h4, h5⟩ := setCampaign_ok_spec h
  subst h5
  refine ⟨rfl, rfl, rfl, rfl, rfl, fun c => rfl, rfl, fun h2 a => rfl, rfl, rfl, by simp,
    h0, h2, h3, h4, ?_⟩
  exact ⟨Nat.one_pos, Nat.one_pos, fun c => Nat.one_pos, fun h a hh => rfl⟩

theorem contributeOp_ok_frame {sender now : Nat} {inp : EncInput} {s s' : State} {hc : Nat}
    (hres : contributeOp sender now inp s = .ok (s', hc)) :
    s'.fundraiser = s.fundraiser ∧ s'.cEth = s.cEth ∧ s'.self = s.self
    ∧ s'.campaign = s.campaign ∧ s'.isClosed = s.isClosed
    ∧ s'.lastContributionAt = now
    ∧ s'.events = s.events ++ [Event.contributionReceived sender s.env.nextHandle now]
    ∧ s.isClosed = false ∧ now ≤ s.campaign.endTime
    ∧ s.ledger.operators sender s.self = true := by
  by_cases h1 : s.isClosed = true <;> simp [contributeOp, h1] at hres
  by_cases h2 : s.campaign.endTime < now <;> simp [h2] at hres
  by_cases h3 : s.ledger.operators sender s.self = false <;> simp [h3] at hres
  by_cases h4 : inp.proofOk = false <;> simp [h4] at hres
  by_cases h5 : s.ledger.balances sender < inp.value <;> simp [h5] at hres
  obtain ⟨hs', -⟩ := hres
  subst hs'
  simp only [Bool.not_eq_true] at h1
  simp only [Bool.not_eq_false] at h3
  exact ⟨rfl, rfl, rfl, rfl, by simp [h1], rfl, rfl, h1, by omega, h3⟩

theorem closeCampaign_ok_spec {sender now : Nat} {s s' : State}
    (hres : closeCampaignOp sender now s = .ok s') :
    sender = s.fundraiser ∧ s.isClosed = false ∧ s'.isClosed = true
    ∧ s'.fundraiser = s.fundraiser ∧ s'.cEth = s.cEth ∧ s'.self = s.self
    ∧ s'.campaign = s.campaign := by
  by_cases hs : sender = s.fundraiser <;> simp [closeCampaignOp, hs] at hres
  by_cases h1 : s.isClosed = true <;> simp [h1] at hres
  by_cases hi : FHE.isInitialized s.totalRaised = true <;> simp [hi] at hres
  · by_cases ha : s.env.acl s.totalRaised s.self = false <;> simp [ha] at hres
    subst hres
    simp only [Bool.not_eq_true] at h1
    exact ⟨hs, h1, rfl, rfl, rfl, rfl, rfl⟩
  · by_cases ha : ((s.env.mint 0).allow s.env.nextHandle s.self).acl s.env.nextHandle s.self
      = false <;> simp [ha] at hres
    subst hres
    simp only [Bool.not_eq_true] at h1
    exact ⟨hs, h1, rfl, rfl, rfl, rfl, rfl⟩


theorem setCampaign_on_closed {nm : String} {t e now : Nat} {s : State}
    (h : s.isClosed = true) : setCampaign nm t e now s = .error "Campaign closed" := by
  simp [setCampaign, h]

theorem contribute_on_closed {sender now : Nat} {inp : EncInput} {s : State}
    (h : s.isClosed = true) : contributeOp sender now inp s = .error "Campaign closed" := by
  simp [contributeOp, h]

theorem close_on_closed {sender now : Nat} {s : State}
    (h : s.isClosed = true) (hs : sender = s.fundraiser) :
    closeCampaignOp sender now s = .error "Already closed" := by
  simp [closeCampaignOp, hs, h]

/-- C4: a failing invocation of any state-changing operation (configure,
contribute, close) reverts, so the observable post-state is exactly the
pre-state: no write to campaign metadata, contributions, the encrypted
total, `lastContributionAt` or the closed flag survives, and no audit
event is appended (the event log is part of `State`). -/
theorem C4_failed_tx_state_unchanged (tx : Tx) (s : State) (e : String)
    (h : stepTx tx s = .error e) : applyTx tx s = s := by
  simp [applyTx, h]

theorem C4_witness :
    stepTx (Tx.configure 9 60 "next" 1 200) s0ex = .error "Only fundraiser"
    ∧ applyTx (Tx.configure 9 60 "next" 1 200) s0ex = s0ex :=
  ⟨by rfl, C4_failed_tx_state_unchanged _ _ "Only fundraiser" (by rfl)⟩

/-- C5: `contribute` checks, in order: the closed flag (revert
"Campaign closed", the spec's CampaignClosed), the end time with a
strict comparison so `now = endTime` still passes (revert
"Past end time", PastEndTime), and the token operator approval (revert
"Operator missing", OperatorMissing); all three precede the ledger
transfer, and with the three checks green and the transfer fine a
contribution at exactly `now = endTime` is accepted. -/
theorem C5_contribute_check_order (sender now : Nat) (inp : EncInput) (s : State) :
    (s.isClosed = true → contributeOp sender now inp s = .error "Campaign closed")
    ∧ (s.isClosed = false → s.campaign.endTime < now →
        contributeOp sender now inp s = .error "Past end time")
    ∧ (s.isClosed = false → now ≤ s.campaign.endTime →
        s.ledger.operators sender s.self = false →
        contributeOp sender now inp s = .error "Operator missing")
    ∧ (s.isClosed = false → now = s.campaign.endTime →
        s.ledger.operators sender s.self = true → inp.proofOk = true →
        inp.value ≤ s.ledger.balances sender →
        ∃ p, contributeOp sender now inp s = .ok p) := by
  refine ⟨fun h1 => contribute_on_closed h1, fun h1 h2 => by simp [contributeOp, h1, h2],
    fun h1 h2 h3 => ?_, fun h1 h2 h3 h4 h5 => ?_⟩
  · have h2n : ¬ s.campaign.endTime < now := by omega
    simp [contributeOp, h1, h2n, h3]
  · have h2n : ¬ s.campaign.endTime < now := by omega
    have h5n : ¬ s.ledger.balances sender < inp.value := by omega
    simp [contributeOp, h1, h2n, h3, h4, h5n]

theorem C5_witness :
    contributeOp 7 60 reqA sClosedEx = .error "Campaign closed"
    ∧ contributeOp 7 101 reqA s0ex = .error "Past end time"
    ∧ contributeOp 9 50 reqA s0ex = .error "Operator missing"
    ∧ (∃ p, contributeOp 7 100 reqA s0ex = .ok p) :=
  ⟨(C5_contribute_check_order 7 60 reqA sClosedEx).1 (by rfl),
    (C5_contribute_check_order 7 101 reqA s0ex).2.1 (by rfl) (by decide),
    (C5_contribute_check_order 9 50 reqA s0ex).2.2.1 (by rfl) (by decide) (by rfl),
    (C5_contribute_check_order 7 100 reqA s0ex).2.2.2 (by rfl) (by rfl) (by rfl)
      (by rfl) (by decide)⟩

/-- C6 counterexample: with the spec's error names read off the revert
strings (`AlreadyClosed` is `closeCampaign`'s "Already closed",
`CampaignClosed` is the "Campaign closed" string of `contribute` and
`_setCampaign`), a `configureCampaign` by the fundraiser on a closed
campaign reverts with "Campaign closed", not with "Already closed" as the
claim states. -/
theorem C6_counterexample :
    sClosedEx.isClosed = true
    ∧ configureCampaign 1 "next" 1 200 60 sClosedEx = .error "Campaign closed"
    ∧ "Campaign closed" ≠ "Already closed" :=
  ⟨by rfl, by rfl, by decide⟩

/-- C6 (amended): `configureCampaign` fails with "Only fundraiser"
(Unauthorized) for any non-fundraiser caller; then with "Campaign closed"
(the CampaignClosed terminal-state error, not AlreadyClosed) when the
campaign is closed; then "Name required" (InvalidName) on an empty name;
then "Target required" (InvalidTarget) on a zero target; then
"End time must be in future" (InvalidEndTime) unless `now < endTime`; and
on valid input it overwrites the metadata so `getCampaign` returns exactly
the new values with `closed = false`, emitting `CampaignUpdated`. -/
theorem C6_configure_validation (sender : Nat) (name : String) (t e now : Nat) (s : State) :
    (sender ≠ s.fundraiser → configureCampaign sender name t e now s = .error "Only fundraiser")
    ∧ (sender = s.fundraiser → s.isClosed = true →
        configureCampaign sender name t e now s = .error "Campaign closed")
    ∧ (sender = s.fundraiser → s.isClosed = false → name = "" →
        configureCampaign sender name t e now s = .error "Name required")
    ∧ (sender = s.fundraiser → s.isClosed = false → name ≠ "" → t = 0 →
        configureCampaign sender name t e now s = .error "Target required")
    ∧ (sender = s.fundraiser → s.isClosed = false → name ≠ "" → t ≠ 0 → e ≤ now →
        configureCampaign sender name t e now s = .error "End time must be in future")
    ∧ (sender = s.fundraiser → s.isClosed = false → name ≠ "" → t ≠ 0 → now < e →
        ∃ s', configureCampaign sender name t e now s = .ok s'
          ∧ getCampaign s' = (name, t, e, false)
          ∧ s'.events = s.events ++ [Event.campaignUpdated name t e]) := by
  refine ⟨fun h0 => by simp [configureCampaign, h0],
    fun h0 h1 => by simp [configureCampaign, h0, setCampaign, h1],
    fun h0 h1 h2 => by simp [configureCampaign, h0, setCampaign, h1, h2],
    fun h0 h1 h2 h3 => by simp [configureCampaign, h0, setCampaign, h1, h2, h3],
    fun h0 h1 h2 h3 h4 => by simp [configureCampaign, h0, setCampaign, h1, h2, h3, h4],
    fun h0 h1 h2 h3 h4 => ?_⟩
  have h4n : ¬ e ≤ now := by omega
  refine ⟨{ s with
      campaign := Campaign.mk name t e
      events := s.events ++ [Event.campaignUpdated name t e] }, ?_, ?_, ?_⟩
  · simp [configureCampaign, h0, setCampaign, h1, h2, h3, h4n]
  · simp [getCampaign, h1]
  · simp

theorem C6_witness :
    configureCampaign 9 "next" 1 200 60 s0ex = .error "Only fundraiser"
    ∧ configureCampaign 1 "" 1 200 60 s0ex = .error "Name required"
    ∧ configureCampaign 1 "next" 0 200 60 s0ex = .error "Target required"
    ∧ configureCampaign 1 "next" 9 60 60 s0ex = .error "End time must be in future"
    ∧ (∃ s', configureCampaign 1 "next" 9 500 60 s0ex = .ok s'
        ∧ getCampaign s' = ("next", 9, 500, false)
        ∧ s'.events = s0ex.events ++ [Event.campaignUpdated "next" 9 500]) :=
  ⟨(C6_configure_validation 9 "next" 1 200 60 s0ex).1 (by decide),
    (C6_configure_validation 1 "" 1 200 60 s0ex).2.2.1 (by rfl) (by rfl) (by rfl),
    (C6_configure_validation 1 "next" 0 200 60 s0ex).2.2.2.1 (by rfl) (by rfl)
      (by decide) (by rfl),
    (C6_configure_validation 1 "next" 9 60 60 s0ex).2.2.2.2.1 (by rfl) (by rfl)
      (by decide) (by decide) (by decide),
    (C6_configure_validation 1 "next" 9 500 60 s0ex).2.2.2.2.2 (by rfl) (by rfl)
      (by decide) (by decide) (by decide)⟩


/-- C7 counterexample: the claim expects the post-close `configure` failure
to be `AlreadyClosed`, but a `configureCampaign` by the fundraiser on the
closed campaign reverts with `_setCampaign`'s "Campaign closed" string
(the CampaignClosed error), while only the second `closeCampaign` reverts
with "Already closed". -/
theorem C7_counterexample :
    configureCampaign 1 "late" 9 300 60 sClosedEx = .error "Campaign closed"
    ∧ closeCampaignOp 1 60 sClosedEx = .error "Already closed"
    ∧ "Campaign closed" ≠ "Already closed" :=
  ⟨by rfl, by rfl, by decide⟩

/-- C7 (amended): the closed flag is monotonic.  A closed state is frozen:
every state-changing transaction on it reverts and leaves it unchanged; a
transaction that flips `isClosed` from false to true can only be a
successful `close` sent by the fundraiser; after closing, a `configure` by
the fundraiser fails with "Campaign closed" (CampaignClosed) and a second
`close` fails with "Already closed" (AlreadyClosed); and a freshly
constructed state has `isClosed = false`. -/
theorem C7_closed_monotonic (tx : Tx) (s : State) :
    (s.isClosed = true → applyTx tx s = s)
    ∧ (s.isClosed = false → (applyTx tx s).isClosed = true →
        ∃ sender now, tx = Tx.close sender now ∧ sender = s.fundraiser)
    ∧ (∀ name t e now, s.isClosed = true →
        configureCampaign s.fundraiser name t e now s = .error "Campaign closed")
    ∧ (∀ now, s.isClosed = true →
        closeCampaignOp s.fundraiser now s = .error "Already closed")
    ∧ (∀ dep tok slf nm t e now led, construct dep tok slf nm t e now led = .ok s →
        s.isClosed = false) := by
  refine ⟨fun h1 => ?_, fun h0 h1 => ?_,
    fun name t e now h1 => by simp [configureCampaign, setCampaign, h1],
    fun now h1 => close_on_closed h1 rfl,
    fun dep tok slf nm t e now led h => (construct_ok_spec h).2.2.2.1⟩
  · cases tx with
    | configure sender now name t e =>
      by_cases hs : sender = s.fundraiser
      · simp [applyTx, stepTx, configureCampaign, hs, setCampaign_on_closed h1]
      · simp [applyTx, stepTx, configureCampaign, hs]
    | contribute sender now inp =>
      have hh := @contribute_on_closed sender now inp s h1
      simp [applyTx, stepTx, hh, Except.map]
    | close sender now =>
      by_cases hs : sender = s.fundraiser
      · simp [applyTx, stepTx, close_on_closed h1 hs]
      · simp [applyTx, stepTx, closeCampaignOp, hs]
  · cases tx with
    | configure sender now name t e =>
      exfalso
      cases hres : configureCampaign sender name t e now s with
      | ok s' =>
        have heq : s'.isClosed = s.isClosed := by
          by_cases hs : sender = s.fundraiser <;> simp [configureCampaign, hs] at hres
          obtain ⟨-, -, -, -, h5⟩ := setCampaign_ok_spec hres
          simp [h5]
        simp only [applyTx, stepTx, hres] at h1
        rw [heq] at h1
        simp [h0] at h1
      | error e2 =>
        simp only [applyTx, stepTx, hres] at h1
        rw [h1] at h0
        cases h0
    | contribute sender now inp =>
      exfalso
      cases hres : contributeOp sender now inp s with
      | ok p =>
        have heq : p.1.isClosed = s.isClosed :=
          (@contributeOp_ok_frame sender now inp s p.1 p.2 (by rw [hres])).2.2.2.2.1
        simp only [applyTx, stepTx, hres, Except.map] at h1
        rw [heq] at h1
        simp [h0] at h1
      | error e2 =>
        simp only [applyTx, stepTx, hres, Except.map] at h1
        rw [h1] at h0
        cases h0
    | close sender now =>
      refine ⟨sender, now, rfl, ?_⟩
      cases hres : closeCampaignOp sender now s with
      | ok s' => exact (closeCampaign_ok_spec hres).1
      | error e2 =>
        exfalso
        simp only [applyTx, stepTx, hres] at h1
        rw [h1] at h0
        cases h0

end EtherLift

namespace EtherLift

theorem C7_witness :
    applyTx (Tx.close 1 60) sClosedEx = sClosedEx
    ∧ configureCampaign sClosedEx.fundraiser "late" 9 300 60 sClosedEx
        = .error "Campaign closed"
    ∧ closeCampaignOp sClosedEx.fundraiser 60 sClosedEx = .error "Already closed"
    ∧ (∃ sender now, Tx.close 1 70 = Tx.close sender now ∧ sender = s0ex.fundraiser) :=
  ⟨(C7_closed_monotonic (Tx.close 1 60) sClosedEx).1 (by rfl),
    (C7_closed_monotonic (Tx.close 1 60) sClosedEx).2.2.1 "late" 9 300 60 (by rfl),
    (C7_closed_monotonic (Tx.close 1 60) sClosedEx).2.2.2.1 60 (by rfl),
    (C7_closed_monotonic (Tx.close 1 70) s0ex).2.1 (by rfl) (by rfl)⟩

/-- C3: when the ledger transfer of the payout is rejected (the stored
total is an initialized handle the contract has no access grant on, so the
modelled ERC7984 `confidentialTransfer` refuses it), `closeCampaign`
reverts with the propagated transfer failure and the observable state —
in particular the closed flag — is unchanged: although the source writes
`isClosed = true` before calling the ledger, the revert discards that
write, so the flag is observably set only when the transfer succeeds. -/
theorem C3_close_transfer_failure (sender now : Nat) (s : State)
    (hs : sender = s.fundraiser) (hnc : s.isClosed = false)
    (hinit : FHE.isInitialized s.totalRaised = true)
    (hfail : s.env.acl s.totalRaised s.self = false) :
    closeCampaignOp sender now s = .error "Transfer rejected"
    ∧ applyTx (Tx.close sender now) s = s
    ∧ (applyTx (Tx.close sender now) s).isClosed = false := by
  have h1 : closeCampaignOp sender now s = .error "Transfer rejected" := by
    simp [closeCampaignOp, hs, hnc, hinit, hfail]
  exact ⟨h1, by simp [applyTx, stepTx, h1], by simp [applyTx, stepTx, h1, hnc]⟩

theorem C3_witness :
    closeCampaignOp 1 60 sFailEx = .error "Transfer rejected"
    ∧ applyTx (Tx.close 1 60) sFailEx = sFailEx
    ∧ (applyTx (Tx.close 1 60) sFailEx).isClosed = false :=
  C3_close_transfer_failure 1 60 sFailEx (by rfl) (by rfl) (by rfl) (by rfl)

/-- C8: closing a campaign whose total was never touched (the stored
handle is the uninitialized `0`) still succeeds: `closeCampaign` mints a
fresh zero ciphertext, grants the contract access to it (so it is a valid,
grantable, decryptable ciphertext of plaintext zero, with a nonzero
handle), performs the ledger transfer of that ciphertext to the
fundraiser instead of skipping it, and emits the closed event carrying
it. -/
theorem C8_close_zero_total (sender now : Nat) (s : State)
    (hs : sender = s.fundraiser) (hnc : s.isClosed = false)
    (hz : s.totalRaised = 0) (hpos : 0 < s.env.nextHandle) :
    ∃ s', closeCampaignOp sender now s = .ok s'
      ∧ s'.isClosed = true
      ∧ s'.ledger.transfers = s.ledger.transfers ++ [(s.self, s.fundraiser, s.env.nextHandle)]
      ∧ FHE.isInitialized s.env.nextHandle = true
      ∧ s'.env.valueOf s.env.nextHandle = 0
      ∧ s'.env.acl s.env.nextHandle s.self = true
      ∧ s'.events = s.events ++ [Event.campaignClosed s.fundraiser s.env.nextHandle now] := by
  subst hs
  have hn0 : s.env.nextHandle ≠ 0 := by omega
  have hi : FHE.isInitialized s.totalRaised = false := by simp [FHE.isInitialized, hz]
  have hacl2 : ((s.env.mint 0).allow s.env.nextHandle s.self).acl s.env.nextHandle s.self
      = true := by
    simp [FheEnv.acl_allow]
  simp only [closeCampaignOp, if_pos rfl, hnc, Bool.false_eq_true, if_false, hi, hacl2,
    Bool.true_eq_false]
  refine ⟨_, rfl, rfl, rfl, by simp [FHE.isInitialized, hn0],
    by simp [FheEnv.valueOf_allow, FheEnv.valueOf_mint_eq, hn0], hacl2, rfl⟩

theorem C8_witness :
    ∃ s', closeCampaignOp 1 50 s0ex = .ok s'
      ∧ s'.isClosed = true
      ∧ s'.ledger.transfers = s0ex.ledger.transfers ++ [(s0ex.self, s0ex.fundraiser, s0ex.env.nextHandle)]
      ∧ FHE.isInitialized s0ex.env.nextHandle = true
      ∧ s'.env.valueOf s0ex.env.nextHandle = 0
      ∧ s'.env.acl s0ex.env.nextHandle s0ex.self = true
      ∧ s'.events = s0ex.events ++ [Event.campaignClosed s0ex.fundraiser s0ex.env.nextHandle 50] :=
  C8_close_zero_total 1 50 s0ex (by rfl) (by rfl) (by rfl) (by decide)


/-- C1 counterexample: in a freshly constructed campaign (no contribution
ever recorded), `contributionOf` and `totalRaised` return the raw stored
handle `0`, which is the uninitialized euint64 — not a freshly-minted
valid ciphertext of zero.  The repository's own test suite expects
exactly this (`totalRaised()` equals `ethers.ZeroHash` before any
contribution), and the frontend filters out the zero handle before
decrypting. -/
theorem C1_counterexample :
    contributionOf s0ex 7 = 0 ∧ totalRaisedView s0ex = 0
    ∧ FHE.isInitialized 0 = false :=
  ⟨by rfl, by rfl, by rfl⟩

/-- C1 (amended): the read paths return the stored handle unchanged; for a
contributor with no recorded contribution — and for the total before any
contribution — that stored handle is the uninitialized zero handle
(logically zero but not a minted ciphertext).  Zero-substitution happens
only in `closeCampaign`, never in the read path. -/
theorem C1_reads_return_stored (s : State) (c : Nat)
    (dep tok slf : Nat) (nm : String) (t e now : Nat) (led : Ledger) (s0 : State)
    (h : construct dep tok slf nm t e now led = .ok s0) :
    contributionOf s c = s.contributions c
    ∧ totalRaisedView s = s.totalRaised
    ∧ contributionOf s0 c = 0
    ∧ totalRaisedView s0 = 0
    ∧ FHE.isInitialized 0 = false := by
  obtain ⟨-, -, -, -, h5, h6, -, -, -, -, -, -, -, -, -, -⟩ := construct_ok_spec h
  exact ⟨rfl, rfl, h6 c, h5, rfl⟩

theorem C1_witness :
    contributionOf s0ex 8 = s0ex.contributions 8
    ∧ totalRaisedView s0ex = s0ex.totalRaised
    ∧ contributionOf s0ex 8 = 0
    ∧ totalRaisedView s0ex = 0
    ∧ FHE.isInitialized 0 = false :=
  C1_reads_return_stored s0ex 8 1 2 3 "camp" 5000000 100 0 led0 s0ex (by rfl)

/-- C2: for every constructed campaign and every request schedule, the
plaintext of the stored per-contributor ciphertext after the run equals
the exact sum of that contributor's accepted contribution amounts, and
the plaintext of the stored total equals the exact sum of all accepted
amounts across all contributors; rejected requests contribute nothing.
The accumulation is by homomorphic addition only — no operation in
`contributeOp` reads a plaintext from a stored handle. -/
theorem C2_sums_of_accepted (dep tok slf : Nat) (nm : String) (t e now : Nat)
    (led : Ledger) (s0 : State)
    (h : construct dep tok slf nm t e now led = .ok s0)
    (rs : List Req) (c : Nat) :
    (runAcc s0 rs).1.env.valueOf (contributionOf (runAcc s0 rs).1 c)
      = sumFor c (runAcc s0 rs).2
    ∧ (runAcc s0 rs).1.env.valueOf (totalRaisedView (runAcc s0 rs).1)
      = sumAll (runAcc s0 rs).2 := by
  obtain ⟨-, -, -, -, h5, h6, -, -, -, -, -, -, -, -, -, hwf⟩ := construct_ok_spec h
  obtain ⟨-, hv, ht⟩ := runAcc_spec rs s0 hwf
  constructor
  · simpa [contributionOf, h6 c, FheEnv.valueOf] using hv c
  · simpa [totalRaisedView, h5, FheEnv.valueOf] using ht

theorem C2_witness :
    ((runAcc s0ex rsEx).1.env.valueOf (contributionOf (runAcc s0ex rsEx).1 7)
        = sumFor 7 (runAcc s0ex rsEx).2
      ∧ (runAcc s0ex rsEx).1.env.valueOf (totalRaisedView (runAcc s0ex rsEx).1)
        = sumAll (runAcc s0ex rsEx).2)
    ∧ sumFor 7 (runAcc s0ex rsEx).2 = 3250000
    ∧ sumAll (runAcc s0ex rsEx).2 = 4250000 :=
  ⟨C2_sums_of_accepted 1 2 3 "camp" 5000000 100 0 led0 s0ex (by rfl) rsEx 7,
    by decide, by decide⟩

/-- C9: after every successful contribute, decrypt access on the updated
per-contributor ciphertext is granted to exactly
{contract, contributor, fundraiser}, and decrypt access on the updated
total is granted to exactly the same three principals — in particular the
contributing party is (re-)granted read access to the total. -/
theorem C9_grant_sets (sender now : Nat) (inp : EncInput) (s s' : State) (hc : Nat)
    (hwf : WF s) (hres : contributeOp sender now inp s = .ok (s', hc)) :
    hc = contributionOf s' sender
    ∧ (∀ a, (s'.env.acl (contributionOf s' sender) a = true
        ↔ (a = s.self ∨ a = sender ∨ a = s.fundraiser)))
    ∧ (∀ a, (s'.env.acl (totalRaisedView s') a = true
        ↔ (a = s.self ∨ a = sender ∨ a = s.fundraiser))) := by
  obtain ⟨-, -, -, hch, hag, hat, -, -, -⟩ := contribute_ok_spec hwf hres
  exact ⟨hch, hag, hat⟩

theorem C9_witness :
    2 = contributionOf s1ex 7
    ∧ (∀ a, (s1ex.env.acl (contributionOf s1ex 7) a = true
        ↔ (a = s0ex.self ∨ a = 7 ∨ a = s0ex.fundraiser)))
    ∧ (∀ a, (s1ex.env.acl (totalRaisedView s1ex) a = true
        ↔ (a = s0ex.self ∨ a = 7 ∨ a = s0ex.fundraiser))) :=
  C9_grant_sets 7 10 reqA s0ex s1ex 2
    ⟨Nat.one_pos, Nat.one_pos, fun _ => Nat.one_pos, fun _ _ _ => rfl⟩ (by rfl)

theorem configure_ok_frame {sender : Nat} {nm : String} {t e now : Nat} {s s' : State}
    (hres : configureCampaign sender nm t e now s = .ok s') :
    s'.fundraiser = s.fundraiser ∧ s'.cEth = s.cEth ∧ s'.isClosed = s.isClosed := by
  by_cases hs : sender = s.fundraiser <;> simp [configureCampaign, hs] at hres
  obtain ⟨-, -, -, -, h5⟩ := setCampaign_ok_spec hres
  simp [h5]

/-- C10: construction reverts with "Token required" on the zero token
address; for every nonzero token address and campaign parameters passing
the `_setCampaign` validation it succeeds with the fundraiser fixed to
the deploying caller, the token address stored, and `closed = false`; and
no transaction ever changes the fundraiser or the token address (both are
`immutable`). -/
theorem C10_construction (dep tok slf : Nat) (nm : String) (t e now : Nat) (led : Ledger) :
    (tok = 0 → construct dep tok slf nm t e now led = .error "Token required")
    ∧ (tok ≠ 0 → nm ≠ "" → t ≠ 0 → now < e →
        ∃ s0, construct dep tok slf nm t e now led = .ok s0
          ∧ s0.fundraiser = dep ∧ s0.cEth = tok ∧ s0.isClosed = false
          ∧ getCampaign s0 = (nm, t, e, false))
    ∧ (∀ tx s, (applyTx tx s).fundraiser = s.fundraiser
        ∧ (applyTx tx s).cEth = s.cEth) := by
  refine ⟨fun h0 => by simp [construct, h0], fun h0 h1 h2 h3 => ?_, fun tx s => ?_⟩
  · have h3n : ¬ e ≤ now := by omega
    have hcon : construct dep tok slf nm t e now led = .ok
        { self := slf
          cEth := tok
          fundraiser := dep
          campaign := Campaign.mk nm t e
          totalRaised := 0
          isClosed := false
          lastContributionAt := 0
          contributions := fun _ => 0
          env := { nextHandle := 1, plain := fun _ => 0, acl := fun _ _ => false }
          ledger := led
          events := [Event.campaignUpdated nm t e] } := by
      simp [construct, h0, setCampaign, h1, h2, h3n]
    exact ⟨_, hcon, rfl, rfl, rfl, rfl⟩
  · cases tx with
    | configure sender now2 name2 t2 e2 =>
      cases hres : configureCampaign sender name2 t2 e2 now2 s with
      | ok s' =>
        obtain ⟨hf, hcE, -⟩ := configure_ok_frame hres
        simp [applyTx, stepTx, hres, hf, hcE]
      | error e2 => simp [applyTx, stepTx, hres]
    | contribute sender now2 inp =>
      cases hres : contributeOp sender now2 inp s with
      | ok p =>
        obtain ⟨hf, hcE, -⟩ := @contributeOp_ok_frame sender now2 inp s p.1 p.2 (by rw [hres])
        simp [applyTx, stepTx, hres, Except.map, hf, hcE]
      | error e2 => simp [applyTx, stepTx, hres, Except.map]
    | close sender now2 =>
      cases hres : closeCampaignOp sender now2 s with
      | ok s' =>
        obtain ⟨-, -, -, hf, hcE, -, -⟩ := closeCampaign_ok_spec hres
        simp [applyTx, stepTx, hres, hf, hcE]
      | error e2 => simp [applyTx, stepTx, hres]

theorem C10_witness :
    construct 1 0 3 "camp" 5000000 100 0 led0 = .error "Token required"
    ∧ (∃ s0, construct 1 2 3 "camp" 5000000 100 0 led0 = .ok s0
        ∧ s0.fundraiser = 1 ∧ s0.cEth = 2 ∧ s0.isClosed = false
        ∧ getCampaign s0 = ("camp", 5000000, 100, false))
    ∧ ((applyTx (Tx.close 1 50) s0ex).fundraiser = s0ex.fundraiser
        ∧ (applyTx (Tx.close 1 50) s0ex).cEth = s0ex.cEth) :=
  ⟨(C10_construction 1 0 3 "camp" 5000000 100 0 led0).1 (by rfl),
    (C10_construction 1 2 3 "camp" 5000000 100 0 led0).2.1 (by decide) (by decide)
      (by decide) (by decide),
    (C10_construction 1 2 3 "camp" 5000000 100 0 led0).2.2 (Tx.close 1 50) s0ex⟩

end EtherLift
